import Mathlib

/-!
Shallow embedding of `src/generate_app_icons.py` (repository FSPRani).

The script draws a 1024×1024 base icon with PIL, resizes it to a fixed
list of sizes, writes each as a PNG into a fixed output directory, and
writes a static `Contents.json` manifest.  Pure Python code is translated
directly; the PIL and `os` library calls the script makes are modelled by
small Lean structures recording exactly the information those calls
produce or consume (image mode and dimensions, draw operations with their
bounding boxes, file writes with path/format/content, directory creation
with `exist_ok=True` semantics).  Environment-dependent behaviour (whether
the Helvetica font loads, the font's text metrics, the state of the
filesystem) is captured in an explicit `Env` record, so the whole run is a
function of `Env`.
-/

namespace FSPRani

/-- A PIL font handle as used by the script: either a truetype font loaded
from a path at a pixel size (`ImageFont.truetype`), or the built-in
default bitmap font (`ImageFont.load_default`). -/
inductive Font where
  | truetype (path : String) (fontSize : Nat)
  | defaultFont
deriving DecidableEq

/-- A fill colour argument as passed by the script to PIL: a colour
string (hex or named) or an RGB integer triple.  Components are `Int`
because Python integer arithmetic produces them. -/
inductive Fill where
  | named (s : String)
  | rgb (r g b : Int)
deriving DecidableEq

/-- A PIL bounding box `(x0, y0, x1, y1)`, as passed to `draw.ellipse`
and as returned by `draw.textbbox`. -/
structure BBox where
  x0 : Int
  y0 : Int
  x1 : Int
  y1 : Int
deriving DecidableEq

/-- Horizontal extent of a bounding box, `x1 - x0`.  For a `textbbox`
result this is the `text_width` the script computes at line 48. -/
def BBox.bwidth (b : BBox) : Int := b.x1 - b.x0

/-- Vertical extent of a bounding box, `y1 - y0`. -/
def BBox.bheight (b : BBox) : Int := b.y1 - b.y0

/-- A drawing operation issued through `ImageDraw`: the script uses only
filled ellipses and text. -/
inductive DrawOp where
  | ellipse (box : BBox) (fill : Fill)
  | text (x y : Int) (s : String) (fill : Fill) (font : Font)
deriving DecidableEq

/-- A PIL resampling filter; the script passes `Image.Resampling.LANCZOS`. -/
inductive Filter where
  | nearest
  | bilinear
  | bicubic
  | lanczos
deriving DecidableEq

/-- A PIL image as the script manipulates it: either a freshly created
canvas (`Image.new`) with its mode, dimensions, background colour and the
list of draw operations applied to it, or the result of `img.resize`,
which keeps the source image's mode and takes the requested dimensions. -/
inductive Image where
  | drawn (mode : String) (width height : Nat) (bg : Fill) (ops : List DrawOp)
  | resized (src : Image) (width height : Nat) (filt : Filter)
deriving DecidableEq

/-- Pixel width of an image. -/
def Image.width : Image → Nat
  | .drawn _ w _ _ _ => w
  | .resized _ w _ _ => w

/-- Pixel height of an image. -/
def Image.height : Image → Nat
  | .drawn _ _ h _ _ => h
  | .resized _ _ h _ => h

/-- PIL colour mode of an image; `resize` preserves the source mode. -/
def Image.mode : Image → String
  | .drawn m _ _ _ _ => m
  | .resized src _ _ _ => src.mode

/-- Number of colour channels of a PIL mode (from the PIL mode table:
`L` 1 band, `RGB` 3 bands, `RGBA`/`CMYK` 4 bands). -/
def modeChannels (m : String) : Nat :=
  if m = "L" then 1
  else if m = "RGB" then 3
  else if m = "RGBA" then 4
  else if m = "CMYK" then 4
  else 0

/-- Whether a PIL mode carries an alpha channel. -/
def modeHasAlpha (m : String) : Bool := m = "RGBA"

/-- Model of `img.resize((w, h), filt)`: returns a new image of the requested
dimensions (line 89 of the script). -/
def Image.resize (img : Image) (w h : Nat) (filt : Filter) : Image :=
  .resized img w h filt

/-- Python floor division `a // b` on integers. -/
def pydiv (a b : Int) : Int := Int.fdiv a b

/-- The run environment: everything outside the script that its behaviour
depends on.  `fontOk` is whether `ImageFont.truetype` succeeds on the
Helvetica path; `metrics` is the `draw.textbbox` result for a font and a
string; `dirExists` is whether the output directory already exists;
`mkdirOk` is whether creating it (when absent) succeeds. -/
structure Env where
  fontOk : Bool
  metrics : Font → String → BBox
  dirExists : Bool
  mkdirOk : Bool

/-- Line 23: `ball_size = size // 3`. -/
def ball_size (size : Nat) : Nat := size / 3

/-- Lines 24–25: the ball's bounding box
`(size//2 - ball_size//2, …, size//2 + ball_size//2, …)`. -/
def ball_pos (size : Nat) : BBox :=
  ⟨(size : Int) / 2 - (ball_size size : Int) / 2,
   (size : Int) / 2 - (ball_size size : Int) / 2,
   (size : Int) / 2 + (ball_size size : Int) / 2,
   (size : Int) / 2 + (ball_size size : Int) / 2⟩

/-- Line 31: `highlight_size = ball_size // 3`. -/
def highlight_size (size : Nat) : Nat := ball_size size / 3

/-- Lines 32–34: the highlight's bounding box
`(size//2 - ball_size//3, …, size//2 - ball_size//3 + highlight_size, …)`. -/
def highlight_pos (size : Nat) : BBox :=
  ⟨(size : Int) / 2 - (ball_size size : Int) / 3,
   (size : Int) / 2 - (ball_size size : Int) / 3,
   (size : Int) / 2 - (ball_size size : Int) / 3 + highlight_size size,
   (size : Int) / 2 - (ball_size size : Int) / 3 + highlight_size size⟩

/-- Lines 17–20: the gradient loop, one ellipse per `i in range(size//2)`
with bounding box `[i, i, size-i, size-i]` and fill
`(30 + i//8, 136 + i//8, 229 - i//4)`. -/
def gradientOps (size : Nat) : List DrawOp :=
  (List.range (size / 2)).map fun i =>
    .ellipse ⟨(i : Int), (i : Int), (size : Int) - i, (size : Int) - i⟩
      (.rgb (30 + (i : Int) / 8) (136 + (i : Int) / 8) (229 - (i : Int) / 4))

/-- Lines 40–44: the font the script ends up with — Helvetica at
`size // 6` when `ImageFont.truetype` succeeds, otherwise the default
bitmap font from the bare `except` branch. -/
def chosenFont (env : Env) (size : Nat) : Font :=
  if env.fontOk then .truetype "/System/Library/Fonts/Helvetica.ttc" (size / 6)
  else .defaultFont

/-- Lines 10–59, `create_base_icon(size=1024)`: create a 'RGB' canvas of
`(size, size)` with background `'#1E88E5'`, draw the gradient ellipses,
the ball, the highlight, then the "FSP" label with its shadow.  The font
is Helvetica at `size//6` when loading it succeeds, else the default
bitmap font (the `try/except` at lines 40–44); `draw.textbbox` is taken
from the environment. -/
def create_base_icon (env : Env) (size : Nat := 1024) : Image :=
  let font : Font := chosenFont env size
  let bbox := env.metrics font "FSP"
  let text_width := bbox.bwidth
  let text_x := pydiv ((size : Int) - text_width) 2
  let text_y : Int := (size : Int) - (size : Int) / 4
  .drawn "RGB" size size (.named "#1E88E5")
    (gradientOps size ++
      [.ellipse (ball_pos size) (.named "#FFD54F"),
       .ellipse (highlight_pos size) (.named "#FFECB3"),
       .text (text_x + 3) (text_y + 3) "FSP" (.named "#00000033") font,
       .text text_x text_y "FSP" (.named "white") font])

/-- Lines 67–81: the fixed ordered list of `(size, filename)` pairs. -/
def icon_sizes : List (Nat × String) :=
  [(20, "Icon-20.png"),
   (29, "Icon-29.png"),
   (40, "Icon-40.png"),
   (58, "Icon-58.png"),
   (60, "Icon-60.png"),
   (76, "Icon-76.png"),
   (80, "Icon-80.png"),
   (87, "Icon-87.png"),
   (120, "Icon-120.png"),
   (152, "Icon-152.png"),
   (167, "Icon-167.png"),
   (180, "Icon-180.png"),
   (1024, "Icon-1024.png")]

/-- Line 84: the hardcoded output directory. -/
def icons_dir : String :=
  "/Volumes/FSP/FSPRani3/FSPRani3App/Assets.xcassets/AppIcon.appiconset"

/-- Model of `os.path.join(dir, name)` for an absolute directory with no trailing
separator, as used at lines 90 and 215. -/
def pathJoin (a b : String) : String := a ++ "/" ++ b

/-- A file written by the run: an image saved via `img.save(path, "PNG")`
or a text file written via `open(path, 'w')`. -/
inductive FileWrite where
  | image (path : String) (img : Image) (format : String)
  | textFile (path : String) (content : String)
deriving DecidableEq

/-- Path of a file write. -/
def FileWrite.path : FileWrite → String
  | .image p _ _ => p
  | .textFile p _ => p

/-- Model of `os.makedirs(dir, exist_ok=True)` (line 85): succeeds when the
directory already exists (the `exist_ok=True` semantics of the Python
standard library), otherwise succeeds or raises according to whether the
filesystem allows the creation. -/
def makedirs (env : Env) : Except String Unit :=
  if env.dirExists then .ok ()
  else if env.mkdirOk then .ok ()
  else .error "makedirs failed"

/-- One element of the `"images"` array of the `contents_json` literal
(lines 97–206): a slot entry with its four string fields, in the order
`filename`, `idiom`, `scale`, `size` in which the literal lists them. -/
structure ImageEntry where
  filename : String
  idiom : String
  scale : String
  size : String
deriving DecidableEq

/-- The `"info"` object of the `contents_json` literal (lines 207–210):
`"author" : "xcode"` and the numeric `"version" : 1`. -/
structure ManifestInfo where
  author : String
  version : Nat
deriving DecidableEq

/-- The whole `contents_json` document: an object with an `images` array
and an `info` object. -/
structure ManifestDoc where
  images : List ImageEntry
  info : ManifestInfo
deriving DecidableEq

/-- The 18 slot entries of the `contents_json` literal, transcribed in
order from lines 98–205 of the script. -/
def manifestImages : List ImageEntry :=
  [⟨"Icon-40.png", "iphone", "2x", "20x20"⟩,
   ⟨"Icon-60.png", "iphone", "3x", "20x20"⟩,
   ⟨"Icon-58.png", "iphone", "2x", "29x29"⟩,
   ⟨"Icon-87.png", "iphone", "3x", "29x29"⟩,
   ⟨"Icon-80.png", "iphone", "2x", "40x40"⟩,
   ⟨"Icon-120.png", "iphone", "3x", "40x40"⟩,
   ⟨"Icon-120.png", "iphone", "2x", "60x60"⟩,
   ⟨"Icon-180.png", "iphone", "3x", "60x60"⟩,
   ⟨"Icon-20.png", "ipad", "1x", "20x20"⟩,
   ⟨"Icon-40.png", "ipad", "2x", "20x20"⟩,
   ⟨"Icon-29.png", "ipad", "1x", "29x29"⟩,
   ⟨"Icon-58.png", "ipad", "2x", "29x29"⟩,
   ⟨"Icon-40.png", "ipad", "1x", "40x40"⟩,
   ⟨"Icon-80.png", "ipad", "2x", "40x40"⟩,
   ⟨"Icon-76.png", "ipad", "1x", "76x76"⟩,
   ⟨"Icon-152.png", "ipad", "2x", "76x76"⟩,
   ⟨"Icon-167.png", "ipad", "2x", "83.5x83.5"⟩,
   ⟨"Icon-1024.png", "ios-marketing", "1x", "1024x1024"⟩]

/-- The `contents_json` document as structured data: the 18 slot entries
and the info object, exactly as the literal at lines 95–212 lays them
out. -/
def manifestDoc : ManifestDoc :=
  { images := manifestImages, info := { author := "xcode", version := 1 } }

/-- Serialize one slot entry with the exact punctuation, key order and
indentation the `contents_json` literal uses for each `images` element
(four-space indent on the braces, six-space indent on the fields,
`" : "` separators). -/
def renderEntry (e : ImageEntry) : String :=
  "    \x7b\n      \"filename\" : \"" ++ e.filename ++
  "\",\n      \"idiom\" : \"" ++ e.idiom ++
  "\",\n      \"scale\" : \"" ++ e.scale ++
  "\",\n      \"size\" : \"" ++ e.size ++ "\"\n    \x7d"

/-- Serialize a manifest document with the exact layout of the
`contents_json` literal after the `strip()` applied at the write site
(line 217): the top-level object with the `images` array (entries
comma-newline separated) followed by the `info` object. -/
def renderDoc (d : ManifestDoc) : String :=
  "\x7b\n  \"images\" : [\n" ++
  String.intercalate ",\n" (d.images.map renderEntry) ++
  "\n  ],\n  \"info\" : \x7b\n    \"author\" : \"" ++ d.info.author ++
  "\",\n    \"version\" : " ++ toString d.info.version ++
  "\n  \x7d\n\x7d"

/-- The text the script writes to `Contents.json`: the `contents_json`
literal of lines 95–212 with its leading and trailing newline stripped
(line 217), represented as the serialization of its structured content. -/
def contents_json : String := renderDoc manifestDoc

/-- Lines 88–92 and 214–217: the files the run writes once the output
directory exists — one PNG per `icon_sizes` entry, in list order, each
the LANCZOS resize of the base icon to the entry's square dimensions,
followed by the `Contents.json` text file. -/
def runWrites (env : Env) : List FileWrite :=
  (icon_sizes.map fun p =>
    .image (pathJoin icons_dir p.2)
      ((create_base_icon env 1024).resize p.1 p.1 .lanczos) "PNG") ++
  [.textFile (pathJoin icons_dir "Contents.json") contents_json]

/-- Lines 61–218, `generate_icons()`: build the base icon, create the
output directory with `os.makedirs(..., exist_ok=True)`, and on success
perform the file writes; a `makedirs` failure aborts the run before any
file is written. -/
def generate_icons (env : Env) : Except String (List FileWrite) :=
  match makedirs env with
  | .error e => .error e
  | .ok _ => .ok (runWrites env)

/-- Whether a file write is an image save. -/
def FileWrite.isImage : FileWrite → Bool
  | .image _ _ _ => true
  | .textFile _ _ => false

/-- Whether a file write is a text-file write. -/
def FileWrite.isText : FileWrite → Bool
  | .image _ _ _ => false
  | .textFile _ _ => true

/-- Pixel dimensions of an image write (`none` for a text write). -/
def FileWrite.dims : FileWrite → Option (Nat × Nat)
  | .image _ img _ => some (img.width, img.height)
  | .textFile _ _ => none

/-- The observable shape of a file write: its path and pixel dimensions. -/
def FileWrite.shape (w : FileWrite) : String × Option (Nat × Nat) :=
  (w.path, w.dims)

/-- The contents of the manifest files among a run's writes. -/
def manifestContents (ws : List FileWrite) : List String :=
  ws.filterMap fun w =>
    match w with
    | .textFile p c => if p = pathJoin icons_dir "Contents.json" then some c else none
    | .image _ _ _ => none

/-- Numeric value of a decimal digit character. -/
def digitVal (c : Char) : Option Nat :=
  if c.isDigit then some (c.toNat - 48) else none

/-- Numeric value of a nonempty all-digit character list. -/
def natOfDigits (cs : List Char) : Option Nat :=
  if cs.isEmpty then none
  else cs.foldl (fun acc c => acc.bind fun n => (digitVal c).map fun d => 10 * n + d)
    (some 0)

/-- Value, in tenths, of a decimal numeral with an optional single
fractional digit (so `"83.5"` is `835` and `"20"` is `200`). -/
def parseTenths (cs : List Char) : Option Nat :=
  match cs.dropWhile (fun c => c ≠ '.') with
  | [] => (natOfDigits cs).map (fun n => n * 10)
  | _ :: fs =>
    match natOfDigits (cs.takeWhile (fun c => c ≠ '.')), fs with
    | some n, [f] => (digitVal f).map fun d => 10 * n + d
    | _, _ => none

/-- Numeric nominal size, in tenths of a point, of a manifest `size`
string of the square form `"NxN"`: both components must agree, and the
value of one component is returned (so `"83.5x83.5"` is `835`). -/
def sizeTenths (s : String) : Option Nat :=
  let cs := s.toList
  let first := cs.takeWhile (fun c => c ≠ 'x')
  let rest := cs.dropWhile (fun c => c ≠ 'x')
  if rest.drop 1 = first then parseTenths first else none

/-- Numeric scale factor of a manifest `scale` string of the form
`"Nx"` (so `"2x"` is `2`). -/
def numScale (s : String) : Option Nat :=
  let cs := s.toList
  if cs.getLast? = some 'x' then natOfDigits cs.dropLast else none

/-- The pixel dimension `icon_sizes` associates with a filename. -/
def lookupSize (fn : String) : Option Nat :=
  (icon_sizes.find? fun p => p.2 == fn).map fun p => p.1

/-- Consistency of one manifest slot with the size-specification list:
its filename occurs in `icon_sizes`, its scale and size strings are
numeric, and scale × nominal size equals the pixel dimension recorded
for that filename (stated in tenths to keep `83.5` exact). -/
def slotConsistent (e : ImageEntry) : Bool :=
  match numScale e.scale, sizeTenths e.size, lookupSize e.filename with
  | some sc, some t, some px => sc * t == 10 * px
  | _, _, _ => false

/-- The idiom set named by the specification: `phone`, `tablet`,
`marketing` (stated from the spec's words, to compare against the
strings the code actually emits). -/
def specIdiom (s : String) : Prop :=
  s = "phone" ∨ s = "tablet" ∨ s = "marketing"

instance (s : String) : Decidable (specIdiom s) := by
  unfold specIdiom; infer_instance

/-- The scale set named by the specification: `"1x"`, `"2x"`, `"3x"`. -/
def specScale (s : String) : Prop :=
  s = "1x" ∨ s = "2x" ∨ s = "3x"

instance (s : String) : Decidable (specScale s) := by
  unfold specScale; infer_instance

/-- The idiom strings the `contents_json` literal actually uses. -/
def codeIdiom (s : String) : Prop :=
  s = "iphone" ∨ s = "ipad" ∨ s = "ios-marketing"

instance (s : String) : Decidable (codeIdiom s) := by
  unfold codeIdiom; infer_instance

/-- A concrete environment for witnesses: font loads, directory exists. -/
def wEnv : Env :=
  { fontOk := true, metrics := fun _ _ => ⟨0, 0, 0, 0⟩,
    dirExists := true, mkdirOk := true }

/-- A concrete environment in which the Helvetica font fails to load. -/
def wEnvNoFont : Env := { wEnv with fontOk := false }

/-- A concrete environment in which the output directory is absent and
cannot be created. -/
def wEnvNoDir : Env :=
  { fontOk := true, metrics := fun _ _ => ⟨0, 0, 0, 0⟩,
    dirExists := false, mkdirOk := false }

/-- A successful run performs exactly the writes of `runWrites`: the
`makedirs` call is the only fallible step before the write loop. -/
theorem generate_icons_ok {env : Env} {ws : List FileWrite}
    (h : generate_icons env = .ok ws) : ws = runWrites env := by
  unfold generate_icons at h
  split at h
  · exact absurd h (by simp)
  · exact (Except.ok.inj h).symm

/-- C1: a successful run writes exactly 13 image files, one per entry of
the size-specification list and in list order, with exactly the listed
filenames, plus one manifest document `Contents.json`, into the output
directory. -/
theorem run_writes_exact (env : Env) (ws : List FileWrite)
    (h : generate_icons env = .ok ws) :
    ws.map FileWrite.path =
      ["Icon-20.png", "Icon-29.png", "Icon-40.png", "Icon-58.png",
       "Icon-60.png", "Icon-76.png", "Icon-80.png", "Icon-87.png",
       "Icon-120.png", "Icon-152.png", "Icon-167.png", "Icon-180.png",
       "Icon-1024.png", "Contents.json"].map (pathJoin icons_dir) ∧
    ws.map FileWrite.path =
      icon_sizes.map (fun p => pathJoin icons_dir p.2) ++
        [pathJoin icons_dir "Contents.json"] ∧
    ws.countP FileWrite.isImage = 13 ∧
    ws.filter FileWrite.isText =
      [.textFile (pathJoin icons_dir "Contents.json") contents_json] := by
  have hw : ws = runWrites env := generate_icons_ok h
  subst hw
  exact ⟨rfl, rfl, rfl, rfl⟩

/-- Witness for C1: the run in the concrete environment `wEnv`. -/
theorem run_writes_exact_witness :
    (runWrites wEnv).map FileWrite.path =
      ["Icon-20.png", "Icon-29.png", "Icon-40.png", "Icon-58.png",
       "Icon-60.png", "Icon-76.png", "Icon-80.png", "Icon-87.png",
       "Icon-120.png", "Icon-152.png", "Icon-167.png", "Icon-180.png",
       "Icon-1024.png", "Contents.json"].map (pathJoin icons_dir) ∧
    (runWrites wEnv).map FileWrite.path =
      icon_sizes.map (fun p => pathJoin icons_dir p.2) ++
        [pathJoin icons_dir "Contents.json"] ∧
    (runWrites wEnv).countP FileWrite.isImage = 13 ∧
    (runWrites wEnv).filter FileWrite.isText =
      [.textFile (pathJoin icons_dir "Contents.json") contents_json] :=
  run_writes_exact wEnv (runWrites wEnv) rfl

/-- C2: for every `(size, filename)` entry of the size-specification
list, a successful run writes at `<output_dir>/<filename>` the LANCZOS
resize of the master image to exactly `size × size` pixels, saved in PNG
format. -/
theorem resize_per_entry (env : Env) (ws : List FileWrite)
    (h : generate_icons env = .ok ws) :
    ∀ p ∈ icon_sizes,
      FileWrite.image (pathJoin icons_dir p.2)
        ((create_base_icon env 1024).resize p.1 p.1 .lanczos) "PNG" ∈ ws ∧
      ((create_base_icon env 1024).resize p.1 p.1 .lanczos).width = p.1 ∧
      ((create_base_icon env 1024).resize p.1 p.1 .lanczos).height = p.1 ∧
      ((create_base_icon env 1024).resize p.1 p.1 .lanczos).mode = "RGB" := by
  have hw : ws = runWrites env := generate_icons_ok h
  subst hw
  intro p hp
  exact ⟨List.mem_append_left _ (List.mem_map_of_mem _ hp), rfl, rfl, rfl⟩

/-- Witness for C2: the entry `(20, "Icon-20.png")` in `wEnv`. -/
theorem resize_per_entry_witness :
    FileWrite.image (pathJoin icons_dir "Icon-20.png")
      ((create_base_icon wEnv 1024).resize 20 20 .lanczos) "PNG" ∈
        runWrites wEnv ∧
    ((create_base_icon wEnv 1024).resize 20 20 .lanczos).width = 20 ∧
    ((create_base_icon wEnv 1024).resize 20 20 .lanczos).height = 20 ∧
    ((create_base_icon wEnv 1024).resize 20 20 .lanczos).mode = "RGB" :=
  resize_per_entry wEnv (runWrites wEnv) rfl (20, "Icon-20.png") (by decide)

/-- C3: the text written to `Contents.json` is the serialization of a
structured document — an `images` array of slot entries with `filename`,
`idiom`, `scale`, `size` string fields and an `info` object with
`author` and `version` — whose `images` array holds exactly one entry
per combination of the fixed predeclared slot set. -/
theorem manifest_structure (env : Env) (ws : List FileWrite)
    (h : generate_icons env = .ok ws) :
    FileWrite.textFile (pathJoin icons_dir "Contents.json")
      (renderDoc manifestDoc) ∈ ws ∧
    manifestDoc.images = manifestImages ∧
    manifestDoc.images.Nodup ∧
    manifestDoc.info.author = "xcode" ∧
    manifestDoc.info.version = 1 := by
  have hw : ws = runWrites env := generate_icons_ok h
  subst hw
  exact ⟨List.mem_append_right _ (List.mem_singleton.mpr rfl), rfl,
    by decide, rfl, rfl⟩

/-- Witness for C3: the manifest write in the concrete environment
`wEnv`. -/
theorem manifest_structure_witness :
    FileWrite.textFile (pathJoin icons_dir "Contents.json")
      (renderDoc manifestDoc) ∈ runWrites wEnv ∧
    manifestDoc.images = manifestImages ∧
    manifestDoc.images.Nodup ∧
    manifestDoc.info.author = "xcode" ∧
    manifestDoc.info.version = 1 :=
  manifest_structure wEnv (runWrites wEnv) rfl

/-- C4 counterexample: the first manifest entry has idiom `"iphone"`,
which is not in the set `{phone, tablet, marketing}` the claim names; so
the claim as stated is false at that entry. -/
theorem manifest_idiom_counterexample :
    manifestDoc.images.head? =
      some ⟨"Icon-40.png", "iphone", "2x", "20x20"⟩ ∧
    (⟨"Icon-40.png", "iphone", "2x", "20x20"⟩ : ImageEntry) ∈
      manifestDoc.images ∧
    ¬ specIdiom "iphone" := by decide

/-- C4 amended: in every entry of the written manifest the idiom string
is one of the fixed set `{iphone, ipad, ios-marketing}` (the strings the
code emits) and the scale string is one of the fixed set
`{"1x", "2x", "3x"}`. -/
theorem manifest_idiom_scale (e : ImageEntry)
    (he : e ∈ manifestDoc.images) :
    codeIdiom e.idiom ∧ specScale e.scale := by
  revert e
  decide

/-- Witness for the amended C4: the first manifest entry. -/
theorem manifest_idiom_scale_witness :
    codeIdiom "iphone" ∧ specScale "2x" :=
  manifest_idiom_scale ⟨"Icon-40.png", "iphone", "2x", "20x20"⟩ (by decide)

/-- The observable shape of a run's writes does not depend on the
environment: paths and pixel dimensions come from `icon_sizes` alone. -/
theorem runWrites_shape (env : Env) :
    (runWrites env).map FileWrite.shape =
      icon_sizes.map (fun p => (pathJoin icons_dir p.2, some (p.1, p.1))) ++
        [(pathJoin icons_dir "Contents.json", (none : Option (Nat × Nat)))] := by
  unfold runWrites
  rw [List.map_append, List.map_map]
  rfl

/-- C5: when loading the Helvetica font fails, the renderer substitutes
the default bitmap font and completes: the base icon has the same
dimensions and mode as ever, and the whole run produces files of the
same paths and pixel dimensions, with the same success status, as in the
successful-font case. -/
theorem font_fallback (env : Env) (size : Nat) (hf : env.fontOk = false) :
    chosenFont env size = .defaultFont ∧
    (create_base_icon env size).width = size ∧
    (create_base_icon env size).height = size ∧
    (create_base_icon env size).mode = "RGB" ∧
    (runWrites env).map FileWrite.shape =
      (runWrites { env with fontOk := true }).map FileWrite.shape ∧
    (generate_icons env).isOk =
      (generate_icons { env with fontOk := true }).isOk := by
  refine ⟨by simp [chosenFont, hf], rfl, rfl, rfl,
    (runWrites_shape env).trans (runWrites_shape _).symm, ?_⟩
  have hm : makedirs { env with fontOk := true } = makedirs env := rfl
  simp only [generate_icons, hm]
  cases makedirs env <;> simp [Except.isOk, Except.toBool]

/-- Witness for C5: the concrete environment `wEnvNoFont`. -/
theorem font_fallback_witness :
    chosenFont wEnvNoFont 1024 = .defaultFont ∧
    (create_base_icon wEnvNoFont 1024).width = 1024 ∧
    (create_base_icon wEnvNoFont 1024).height = 1024 ∧
    (create_base_icon wEnvNoFont 1024).mode = "RGB" ∧
    (runWrites wEnvNoFont).map FileWrite.shape =
      (runWrites { wEnvNoFont with fontOk := true }).map FileWrite.shape ∧
    (generate_icons wEnvNoFont).isOk =
      (generate_icons { wEnvNoFont with fontOk := true }).isOk :=
  font_fallback wEnvNoFont 1024 rfl

/-- C6: the master render at dimension 1024 is exactly 1024 × 1024
pixels in mode RGB — three colour channels and no alpha. -/
theorem base_icon_mode_dims (env : Env) :
    (create_base_icon env 1024).width = 1024 ∧
    (create_base_icon env 1024).height = 1024 ∧
    (create_base_icon env 1024).mode = "RGB" ∧
    modeChannels (create_base_icon env 1024).mode = 3 ∧
    modeHasAlpha (create_base_icon env 1024).mode = false :=
  ⟨rfl, rfl, rfl, rfl, rfl⟩

/-- C7: the program is deterministic — two runs on identical inputs
produce the same writes, hence files of identical pixel dimensions at
every output path and a byte-identical manifest document. -/
theorem run_deterministic (env : Env) (ws₁ ws₂ : List FileWrite)
    (h₁ : generate_icons env = .ok ws₁)
    (h₂ : generate_icons env = .ok ws₂) :
    ws₁ = ws₂ ∧
    ws₁.map FileWrite.shape = ws₂.map FileWrite.shape ∧
    manifestContents ws₁ = manifestContents ws₂ := by
  have e₁ : ws₁ = runWrites env := generate_icons_ok h₁
  have e₂ : ws₂ = runWrites env := generate_icons_ok h₂
  subst e₁; subst e₂
  exact ⟨rfl, rfl, rfl⟩

/-- Witness for C7: two runs in the concrete environment `wEnv`. -/
theorem run_deterministic_witness :
    runWrites wEnv = runWrites wEnv ∧
    (runWrites wEnv).map FileWrite.shape =
      (runWrites wEnv).map FileWrite.shape ∧
    manifestContents (runWrites wEnv) = manifestContents (runWrites wEnv) :=
  run_deterministic wEnv (runWrites wEnv) (runWrites wEnv) rfl rfl

/-- C8: when the output directory is absent and cannot be created the
run aborts with an error and no list of writes is produced (the
`makedirs` call precedes every file write); and directory creation is
idempotent — it succeeds whenever the directory already exists. -/
theorem mkdir_failure_aborts (env : Env) :
    (env.dirExists = false → env.mkdirOk = false →
      generate_icons env = .error "makedirs failed" ∧
      ∀ ws, ¬ generate_icons env = .ok ws) ∧
    (env.dirExists = true → makedirs env = .ok ()) := by
  constructor
  · intro h1 h2
    have hm : makedirs env = .error "makedirs failed" := by
      unfold makedirs; rw [h1, h2]; rfl
    have hg : generate_icons env = .error "makedirs failed" := by
      unfold generate_icons; rw [hm]
    exact ⟨hg, fun ws hws => by rw [hg] at hws; exact absurd hws (by simp)⟩
  · intro h1
    unfold makedirs; rw [h1]; rfl

/-- Witness for C8: a failing environment `wEnvNoDir` for the abort, an
existing directory `wEnv` for the idempotence. -/
theorem mkdir_failure_aborts_witness :
    generate_icons wEnvNoDir = .error "makedirs failed" ∧
    makedirs wEnv = .ok () :=
  ⟨((mkdir_failure_aborts wEnvNoDir).1 rfl rfl).1,
   (mkdir_failure_aborts wEnv).2 rfl⟩

/-- C9 counterexample: at image dimension 1024 the ball ellipse's
bounding box spans `682 - 342 = 340` coordinate units, while one-third
of the image dimension under the code's integer arithmetic is
`1024 // 3 = 341`; so the drawn ball's diameter is not one-third of the
image dimension. -/
theorem ball_diameter_counterexample :
    (ball_pos 1024).bwidth = 340 ∧
    (ball_size 1024 : Int) = 341 ∧
    ¬ (ball_pos 1024).bwidth = (ball_size 1024 : Int) := by decide

/-- C9 amended: the ball's bounding box is exactly centred in the image
(midpoint `size // 2 = 512` on both axes at size 1024) and spans
`2 * ((size // 3) // 2) = 340` coordinate units — one less than
`size // 3 = 341`, which is odd; the highlight's box spans exactly
`(size // 3) // 3 = 113` units, which is one-third, rounded down, of the
ball's drawn span of 340. -/
theorem ball_geometry :
    (ball_pos 1024).x0 + (ball_pos 1024).x1 = 2 * 512 ∧
    (ball_pos 1024).y0 + (ball_pos 1024).y1 = 2 * 512 ∧
    (ball_pos 1024).bwidth = 340 ∧
    (ball_pos 1024).bwidth = 2 * ((1024 / 3 : Int) / 2) ∧
    (ball_pos 1024).bwidth + 1 = (ball_size 1024 : Int) ∧
    (highlight_pos 1024).bwidth = (highlight_size 1024 : Int) ∧
    (highlight_pos 1024).bwidth = 113 ∧
    (highlight_pos 1024).bwidth = (ball_pos 1024).bwidth / 3 ∧
    (highlight_pos 1024).bheight = (highlight_pos 1024).bwidth := by decide

/-- C10: every manifest slot is consistent with the size-specification
list — its filename occurs in `icon_sizes`, and its numeric scale times
its numeric nominal size equals the pixel dimension `icon_sizes` records
for that filename. -/
theorem manifest_sizes_consistent (e : ImageEntry)
    (he : e ∈ manifestDoc.images) : slotConsistent e = true := by
  revert e
  decide

/-- Witness for C10: the fractional-size slot `Icon-167.png`,
`2 × 83.5 = 167`. -/
theorem manifest_sizes_consistent_witness :
    slotConsistent ⟨"Icon-167.png", "ipad", "2x", "83.5x83.5"⟩ = true :=
  manifest_sizes_consistent ⟨"Icon-167.png", "ipad", "2x", "83.5x83.5"⟩
    (by decide)

end FSPRani
